import Mathlib

/-!
Shallow embedding of `src/signal_closure.cpp` (the `gir::GIRSignalClosure`
marshalling unit of node-gir) and proofs about it.

Modelling conventions:
* `GType` (GLib type identifiers) and `GITypeInfo` (introspection type
  descriptors) are opaque tags, modelled as `Nat`.
* A `GValue` is a typed native cell: its `g_type` (what `G_VALUE_TYPE`
  reads) and opaque payload `data`.
* The introspection repository (`g_irepository_get_default()`), an external
  collaborator, is passed explicitly as an association list from `GType` to
  `GIBaseInfo`; `GIBaseInfo` has the object-like / interface-like / other
  variants that `GI_IS_OBJECT_INFO` / `GI_IS_INTERFACE_INFO` distinguish.
* Dynamic (v8) values are `JSValue`: `null`, `undefined`, or an opaque
  usable value `val n`.  A `Nan::MaybeLocal` result is `Option JSValue`
  (`none` = empty handle, i.e. the call produced no value).
* The two conversion primitives (`GIRValue::from_g_value`,
  `GIRValue::to_g_value` from `values.h`) and the callback-invocation
  primitive (`Nan::Call`) are external boundaries; the embedded operations
  take them as function parameters.  `to_g_value` is
  `JSValue → GType → GValue → Bool × GValue`: success flag plus the state
  in which it left the out-slot (on failure, whatever state the failed
  conversion left it in).
* Memory-management calls that have no observable effect on the values
  computed (`g_base_info_unref` of the transient `arg_info` / `type_info` /
  `target_info` handles inside a call) are not modelled; the closure-level
  resource releases performed by the finalizer are modelled as an explicit
  release log (`ReleaseOp`).
-/

abbrev GType := Nat

abbrev GITypeInfo := Nat

/-- GLib's `G_TYPE_NONE` (the void type tag, numerically `1 << 2`). -/
def G_TYPE_NONE : GType := 4

/-- GObject-introspection's void type tag (`GI_TYPE_TAG_VOID = 0`). -/
def GI_TYPE_TAG_VOID : GITypeInfo := 0

/-- A native `GValue` cell: its runtime type tag and an opaque payload. -/
structure GValue where
  g_type : GType
  data : Nat
deriving DecidableEq

/-- Resolved signal metadata (a `GISignalInfo` / `GICallableInfo`): the
ordered parameter type descriptors (`g_callable_info_get_arg` composed with
`g_arg_info_get_type`) and the declared return type descriptor. -/
structure GISignalInfo where
  args : List GITypeInfo
  ret_type : GITypeInfo
deriving DecidableEq

/-- A repository metadata entry (`GIBaseInfo`), with the variants the code
distinguishes: object-like (`GI_IS_OBJECT_INFO`), interface-like
(`GI_IS_INTERFACE_INFO`) — each carrying its signal table — or any other
variant. -/
inductive GIBaseInfo
  | object (signals : List (String × GISignalInfo))
  | interface (signals : List (String × GISignalInfo))
  | other
deriving DecidableEq

/-- The introspection repository state: `GType` to metadata entry. -/
abbrev GIRepository := List (GType × GIBaseInfo)

/-- A durable handle to a JS callback function (`v8::Local<Function>` /
`Nan::Persistent<Function>`), opaque. -/
abbrev CallbackHandle := Nat

/-- The instance wrapper (`GIRObject*`) passed to `create`, opaque. -/
abbrev GIRObject := Nat

/-- A dynamic (v8) value as the marshaller observes it: `IsNull`,
`IsUndefined`, or any other, usable value (opaque payload). -/
inductive JSValue
  | null
  | undefined
  | val (data : Nat)
deriving DecidableEq

/-- The receiver (`this`) binding a callback can be invoked with:
`global` is `Nan::GetCurrentContext()->Global()`; `undef` is the
environment's neutral/empty binding (JS `undefined`); `obj` is any other,
meaningful receiver object. -/
inductive Receiver
  | global
  | undef
  | obj (id : Nat)
deriving DecidableEq

/-- The closure's private state (the `GIRSignalClosure` struct): the
persistent JS callback and the resolved signal descriptor. -/
structure GIRSignalClosure where
  callback : CallbackHandle
  signal_info : GISignalInfo
deriving DecidableEq

/-- One observed callback invocation: which callback was called, with which
receiver binding, and with which argument list. -/
structure Invocation where
  callback : CallbackHandle
  receiver : Receiver
  args : List JSValue
deriving DecidableEq

/-- Outcome of one `closure_marshal` call.  `oob_read` is the undefined
behaviour the source's FIXME warns about: `g_callable_info_get_arg` read
past the end of the descriptor's parameter list (array overrun), before any
callback invocation.  `completed` records the callback invocations made
(each with receiver and arguments), the final state of the native return
slot, and whether an error was reported through `Nan::ThrowError`. -/
inductive MarshalResult
  | oob_read
  | completed (invocations : List Invocation) (return_slot : GValue)
      (error_reported : Bool)
deriving DecidableEq

/-- Observable side effects of one `create` call: how many closures were
allocated (`g_closure_new_simple`) and which callback handles were made
durable (`PersistentFunction(callback)`). -/
structure CreateEffects where
  closures_allocated : Nat
  callbacks_retained : List CallbackHandle
deriving DecidableEq

/-- The two resource releases the finalizer performs:
`g_base_info_unref(signal_info)` and `callback.Reset()`. -/
inductive ReleaseOp
  | unref_signal_info
  | reset_callback
deriving DecidableEq

/-- `g_irepository_find_by_gtype(g_irepository_get_default(), g_type)`,
with the repository state passed explicitly. -/
def g_irepository_find_by_gtype (repo : GIRepository) (g_type : GType) :
    Option GIBaseInfo :=
  List.lookup g_type repo

/-- `g_object_info_find_signal` / `g_interface_info_find_signal`: search a
type's signal table by name. -/
def find_signal (signals : List (String × GISignalInfo))
    (signal_name : String) : Option GISignalInfo :=
  List.lookup signal_name signals

namespace GIRSignalClosure

/-- `GIRSignalClosure::get_signal`: look the `GType` up in the repository;
a missing entry is `none`; an object-like or interface-like entry is
searched for the named signal; any other variant leaves `signal_info` at
`nullptr` (`none`).  The `g_base_info_unref(target_info)` of the transient
entry is a memory operation with no modelled effect.  Total: never raises. -/
def get_signal (repo : GIRepository) (signal_g_type : GType)
    (signal_name : String) : Option GISignalInfo :=
  match g_irepository_find_by_gtype repo signal_g_type with
  | none => none
  | some (GIBaseInfo.object signals) => find_signal signals signal_name
  | some (GIBaseInfo.interface signals) => find_signal signals signal_name
  | some GIBaseInfo.other => none

/-- `GIRSignalClosure::create`: resolve the signal; on `none` return
`nullptr` having done nothing (the early return precedes
`g_closure_new_simple` and the `PersistentFunction` construction); on
success allocate the closure, store the durable callback handle and the
descriptor.  The `instance_arg` parameter (`GIRObject *instance`) is never
read by the source body.  Registration of the marshal and finalize hooks is
implicit: `closure_marshal` / `finalize_handler` below are those hooks. -/
def create (repo : GIRepository) (instance_arg : GIRObject)
    (signal_g_type : GType) (signal_name : String)
    (callback : CallbackHandle) :
    Option GIRSignalClosure × CreateEffects :=
  match get_signal repo signal_g_type signal_name with
  | none => (none, { closures_allocated := 0, callbacks_retained := [] })
  | some signal_info =>
      (some { callback := callback, signal_info := signal_info },
        { closures_allocated := 1, callbacks_retained := [callback] })

/-- The argument-conversion loop of `closure_marshal` (lines 52–79): for
`i` in `0..n_param_values`, fetch the descriptor's `i`-th parameter type
(`g_callable_info_get_arg` — `none` models the array overrun when `i` is
past the end of `args`, the source's FIXME) and convert the `i`-th native
value with `from_g_value`.  Returns the ordered dynamic argument list, or
`none` if an out-of-bounds descriptor read happened. -/
def convert_params (from_g_value : GValue → GITypeInfo → JSValue) :
    List GITypeInfo → List GValue → Option (List JSValue)
  | _, [] => some []
  | [], _ :: _ => none
  | t :: ts, p :: ps =>
      (convert_params from_g_value ts ps).map
        (fun rest => from_g_value p t :: rest)

/-- The result-handling tail of `closure_marshal` (lines 92–110).  If the
call produced no value (`IsEmpty`), or the value `IsNull` or
`IsUndefined`, the source assigns the local pointer (`return_value =
nullptr`) — a no-op on the caller's cell — and returns: the slot is
unchanged and no error is reported.  Otherwise it attempts
`GIRValue::to_g_value(result, G_VALUE_TYPE(return_value), return_value)`:
on success the slot holds the converted value; on failure
`Nan::ThrowError` reports an error and the slot is whatever the failed
conversion left. -/
def handle_result (to_g_value : JSValue → GType → GValue → Bool × GValue)
    (invocations : List Invocation) (return_value : GValue)
    (maybe_result : Option JSValue) : MarshalResult :=
  match maybe_result with
  | none => MarshalResult.completed invocations return_value false
  | some result =>
      if result = JSValue.null ∨ result = JSValue.undefined then
        MarshalResult.completed invocations return_value false
      else
        if (to_g_value result return_value.g_type return_value).1 then
          MarshalResult.completed invocations
            (to_g_value result return_value.g_type return_value).2 false
        else
          MarshalResult.completed invocations
            (to_g_value result return_value.g_type return_value).2 true

/-- `GIRSignalClosure::closure_marshal`: convert every native parameter
value to a dynamic value (loop above), then invoke the callback once —
`Nan::Call(local_callback, Nan::GetCurrentContext()->Global(),
n_param_values, callback_argv.data())` — with the global object as
receiver, and handle the result.  The `invocation_hint` and `marshal_data`
parameters of the native signature are accepted but unused and are not
modelled.  An out-of-bounds descriptor read aborts into `oob_read` before
any invocation. -/
def closure_marshal (from_g_value : GValue → GITypeInfo → JSValue)
    (to_g_value : JSValue → GType → GValue → Bool × GValue)
    (call : CallbackHandle → Receiver → List JSValue → Option JSValue)
    (closure : GIRSignalClosure) (return_value : GValue)
    (param_values : List GValue) : MarshalResult :=
  match convert_params from_g_value closure.signal_info.args param_values with
  | none => MarshalResult.oob_read
  | some callback_argv =>
      handle_result to_g_value
        [{ callback := closure.callback, receiver := Receiver.global,
           args := callback_argv }]
        return_value
        (call closure.callback Receiver.global callback_argv)

/-- `GIRSignalClosure::finalize_handler`: unref the stored `signal_info`
and reset the persistent callback — each exactly once, in that order.
The `notify_data` parameter is registered as `nullptr` and unused.  Total
(returns `void`, cannot fail): the release log is its only effect. -/
def finalize_handler (notify_data : Nat)
    (gir_signal_closure : GIRSignalClosure) : List ReleaseOp :=
  [ReleaseOp.unref_signal_info, ReleaseOp.reset_callback]

end GIRSignalClosure

/-! Concrete fixtures used by witnesses and counterexamples. -/

/-- A concrete callback handle. -/
def cb0 : CallbackHandle := 7

/-- A void-returning signal descriptor with no parameters. -/
def sig_void : GISignalInfo := { args := [], ret_type := GI_TYPE_TAG_VOID }

/-- A closure over `sig_void`. -/
def cl_void : GIRSignalClosure := { callback := cb0, signal_info := sig_void }

/-- A void-typed return slot (what a void-returning emission presents). -/
def slot_void : GValue := { g_type := G_TYPE_NONE, data := 0 }

/-- An int-returning signal descriptor with one parameter of type tag 5. -/
def sig_i32 : GISignalInfo := { args := [5], ret_type := 3 }

/-- A closure over `sig_i32`. -/
def cl_i32 : GIRSignalClosure := { callback := cb0, signal_info := sig_i32 }

/-- An int-typed return slot (GLib `G_TYPE_INT = 24`), uninitialized data. -/
def slot_i32 : GValue := { g_type := 24, data := 0 }

/-- A concrete native parameter value. -/
def gv3 : GValue := { g_type := 24, data := 3 }

/-- A concrete native-to-dynamic conversion: wrap the payload. -/
def conv_data : GValue → GITypeInfo → JSValue :=
  fun v _ => JSValue.val v.data

/-- A concrete dynamic-to-native conversion that succeeds and writes the
out-slot (sets the target type, payload 9). -/
def to_g_write : JSValue → GType → GValue → Bool × GValue :=
  fun _ target_type _ => (true, { g_type := target_type, data := 9 })

/-- A concrete dynamic-to-native conversion that fails, leaving the
out-slot as it found it. -/
def to_g_keep_fail : JSValue → GType → GValue → Bool × GValue :=
  fun _ _ slot => (false, slot)

/-- A concrete callback behaviour: return the usable value `7`. -/
def call_ret7 : CallbackHandle → Receiver → List JSValue → Option JSValue :=
  fun _ _ _ => some (JSValue.val 7)

/-- A concrete callback behaviour: return `null`. -/
def call_ret_null : CallbackHandle → Receiver → List JSValue → Option JSValue :=
  fun _ _ _ => some JSValue.null

/-- A concrete callback behaviour: produce no value (empty handle). -/
def call_ret_none : CallbackHandle → Receiver → List JSValue → Option JSValue :=
  fun _ _ _ => none

/-- A concrete repository: `GType` 1 is object-like with signal
`"activate"`, 2 is interface-like with signal `"changed"`, 3 is some other
variant. -/
def repo0 : GIRepository :=
  [(1, GIBaseInfo.object [("activate", sig_i32)]),
   (2, GIBaseInfo.interface [("changed", sig_void)]),
   (3, GIBaseInfo.other)]

/-! Helper lemmas shared by the claim theorems. -/

/-- When the parameter list is no longer than the descriptor's parameter
type list, the conversion loop performs no out-of-bounds read and produces
exactly the positional `zipWith` of the conversion primitive. -/
theorem convert_params_eq_zipWith (from_g_value : GValue → GITypeInfo → JSValue) :
    ∀ (args : List GITypeInfo) (param_values : List GValue),
      param_values.length ≤ args.length →
      GIRSignalClosure.convert_params from_g_value args param_values =
        some (List.zipWith (fun p t => from_g_value p t) param_values args) := by
  intro args param_values
  induction param_values generalizing args with
  | nil =>
      intro _
      cases args <;> simp [GIRSignalClosure.convert_params]
  | cons p ps ih =>
      intro h
      cases args with
      | nil => exact absurd h (by simp)
      | cons t ts =>
          simp only [List.length_cons, Nat.succ_le_succ_iff] at h
          simp [GIRSignalClosure.convert_params, ih ts h, List.zipWith]

/-- Unfolding of `closure_marshal` when the parameter count does not
exceed the descriptor's parameter count: the conversion loop completes,
and the callback is invoked once with the fully converted argument list
and the global receiver. -/
theorem closure_marshal_eq_handle_result
    (from_g_value : GValue → GITypeInfo → JSValue)
    (to_g_value : JSValue → GType → GValue → Bool × GValue)
    (call : CallbackHandle → Receiver → List JSValue → Option JSValue)
    (closure : GIRSignalClosure) (return_value : GValue)
    (param_values : List GValue)
    (h : param_values.length ≤ closure.signal_info.args.length) :
    GIRSignalClosure.closure_marshal from_g_value to_g_value call closure
        return_value param_values =
      GIRSignalClosure.handle_result to_g_value
        [{ callback := closure.callback, receiver := Receiver.global,
           args := List.zipWith (fun p t => from_g_value p t) param_values
             closure.signal_info.args }]
        return_value
        (call closure.callback Receiver.global
          (List.zipWith (fun p t => from_g_value p t) param_values
            closure.signal_info.args)) := by
  unfold GIRSignalClosure.closure_marshal
  rw [convert_params_eq_zipWith from_g_value closure.signal_info.args
    param_values h]

/-- Whatever the callback call produced, the result-handling tail always
yields a `completed` outcome carrying exactly the invocation list it was
given (it never adds or drops invocations, and never aborts). -/
theorem handle_result_completed
    (to_g_value : JSValue → GType → GValue → Bool × GValue)
    (invocations : List Invocation) (return_value : GValue)
    (maybe_result : Option JSValue) :
    ∃ ret err,
      GIRSignalClosure.handle_result to_g_value invocations return_value
          maybe_result =
        MarshalResult.completed invocations ret err := by
  unfold GIRSignalClosure.handle_result
  cases maybe_result with
  | none => exact ⟨return_value, false, rfl⟩
  | some result =>
      dsimp only
      by_cases h : result = JSValue.null ∨ result = JSValue.undefined
      · rw [if_pos h]
        exact ⟨return_value, false, rfl⟩
      · rw [if_neg h]
        by_cases h2 : (to_g_value result return_value.g_type return_value).1 = true
        · rw [if_pos h2]
          exact ⟨_, false, rfl⟩
        · rw [if_neg h2]
          exact ⟨_, true, rfl⟩

/-- C2: `get_signal` returns the descriptor stored in the type's signal
table exactly when the repository has an entry for the type, that entry is
the object-like or interface-like variant, and the table contains the
named signal; in every other case (entry absent, other variant, or signal
missing from the table) it returns `none`.  Being a total function into
`Option`, it never raises. -/
theorem get_signal_found_iff (repo : GIRepository) (signal_g_type : GType)
    (signal_name : String) (si : GISignalInfo) :
    GIRSignalClosure.get_signal repo signal_g_type signal_name = some si ↔
      (∃ signals,
        List.lookup signal_g_type repo = some (GIBaseInfo.object signals) ∧
        List.lookup signal_name signals = some si) ∨
      (∃ signals,
        List.lookup signal_g_type repo = some (GIBaseInfo.interface signals) ∧
        List.lookup signal_name signals = some si) := by
  unfold GIRSignalClosure.get_signal g_irepository_find_by_gtype find_signal
  cases h : List.lookup signal_g_type repo with
  | none => simp
  | some info => cases info <;> simp

/-- C3: when signal resolution returns `none`, `create` returns no
closure, allocates no closure storage, and retains no callback handle —
the early return precedes every side effect. -/
theorem create_failed_resolution_no_effects (repo : GIRepository)
    (instance_arg : GIRObject) (signal_g_type : GType)
    (signal_name : String) (callback : CallbackHandle)
    (h : GIRSignalClosure.get_signal repo signal_g_type signal_name = none) :
    GIRSignalClosure.create repo instance_arg signal_g_type signal_name
        callback =
      (none, { closures_allocated := 0, callbacks_retained := [] }) := by
  unfold GIRSignalClosure.create
  rw [h]

/-- Witness for C3 at a concrete input: `GType` 9 is absent from `repo0`,
so resolution fails and construction has no effect. -/
theorem create_failed_resolution_no_effects_witness :
    GIRSignalClosure.get_signal repo0 9 "missing" = none ∧
    GIRSignalClosure.create repo0 0 9 "missing" cb0 =
      (none, { closures_allocated := 0, callbacks_retained := [] }) :=
  ⟨rfl, create_failed_resolution_no_effects repo0 0 9 "missing" cb0 rfl⟩

/-- C8: for every closure, one `finalize_handler` call emits the release
of the owned descriptor reference (`g_base_info_unref(signal_info)`)
exactly once and the release of the durable callback handle
(`callback.Reset()`) exactly once; the handler is a total function with no
return value, so it cannot fail. -/
theorem finalize_releases_each_resource_once (notify_data : Nat)
    (closure : GIRSignalClosure) :
    (GIRSignalClosure.finalize_handler notify_data closure).count
        ReleaseOp.unref_signal_info = 1 ∧
    (GIRSignalClosure.finalize_handler notify_data closure).count
        ReleaseOp.reset_callback = 1 := by
  exact ⟨rfl, rfl⟩

/-- C1: a marshal call presented with exactly as many native values as the
descriptor has parameter types results in exactly one callback invocation,
whose argument list is exactly the positional native-to-dynamic conversion
of the native values (`zipWith` against the descriptor's types — same
order, `i`-th value converted with the `i`-th type, all of them present:
no partial list can reach the callback, since the fully converted list is
the one recorded in the single invocation).  Return-value conversion acts
only on the call's result, i.e. after the callback returned, which the
composition `handle_result (call …)` makes structural. -/
theorem marshal_single_invocation_ordered_args
    (from_g_value : GValue → GITypeInfo → JSValue)
    (to_g_value : JSValue → GType → GValue → Bool × GValue)
    (call : CallbackHandle → Receiver → List JSValue → Option JSValue)
    (closure : GIRSignalClosure) (return_value : GValue)
    (param_values : List GValue)
    (hlen : param_values.length = closure.signal_info.args.length) :
    ∃ ret err,
      GIRSignalClosure.closure_marshal from_g_value to_g_value call closure
          return_value param_values =
        MarshalResult.completed
          [{ callback := closure.callback, receiver := Receiver.global,
             args := List.zipWith (fun p t => from_g_value p t) param_values
               closure.signal_info.args }] ret err
      ∧ (List.zipWith (fun p t => from_g_value p t) param_values
          closure.signal_info.args).length = param_values.length := by
  have hL : (List.zipWith (fun p t => from_g_value p t) param_values
      closure.signal_info.args).length = param_values.length := by
    rw [List.length_zipWith, hlen, Nat.min_self]
  obtain ⟨ret, err, heq⟩ := handle_result_completed to_g_value
    [{ callback := closure.callback, receiver := Receiver.global,
       args := List.zipWith (fun p t => from_g_value p t) param_values
         closure.signal_info.args }] return_value
    (call closure.callback Receiver.global
      (List.zipWith (fun p t => from_g_value p t) param_values
        closure.signal_info.args))
  refine ⟨ret, err, ?_, hL⟩
  rw [closure_marshal_eq_handle_result from_g_value to_g_value call closure
    return_value param_values (le_of_eq hlen)]
  exact heq

/-- Witness for C1: one parameter of type tag 5, one native value `gv3`;
the single invocation carries the one converted argument. -/
theorem marshal_single_invocation_ordered_args_witness :
    ∃ ret err,
      GIRSignalClosure.closure_marshal conv_data to_g_write call_ret7 cl_i32
          slot_i32 [gv3] =
        MarshalResult.completed
          [{ callback := cl_i32.callback, receiver := Receiver.global,
             args := List.zipWith (fun p t => conv_data p t) [gv3]
               cl_i32.signal_info.args }] ret err
      ∧ (List.zipWith (fun p t => conv_data p t) [gv3]
          cl_i32.signal_info.args).length = [gv3].length :=
  marshal_single_invocation_ordered_args conv_data to_g_write call_ret7
    cl_i32 slot_i32 [gv3] rfl

/-- C5: when the callback returned a usable value (neither the empty
handle nor `null` nor `undefined`) and the dynamic-to-native conversion of
it to the return slot's own type fails, the marshal call reports an error
through `Nan::ThrowError` and returns at once, the return slot being
whatever state the failed conversion left it in. -/
theorem marshal_return_conversion_failure_reports
    (from_g_value : GValue → GITypeInfo → JSValue)
    (to_g_value : JSValue → GType → GValue → Bool × GValue)
    (call : CallbackHandle → Receiver → List JSValue → Option JSValue)
    (closure : GIRSignalClosure) (return_value : GValue)
    (param_values : List GValue) (result : JSValue)
    (hlen : param_values.length = closure.signal_info.args.length)
    (hcall : call closure.callback Receiver.global
        (List.zipWith (fun p t => from_g_value p t) param_values
          closure.signal_info.args) = some result)
    (hnn : result ≠ JSValue.null) (hnu : result ≠ JSValue.undefined)
    (hfail : (to_g_value result return_value.g_type return_value).1 = false) :
    GIRSignalClosure.closure_marshal from_g_value to_g_value call closure
        return_value param_values =
      MarshalResult.completed
        [{ callback := closure.callback, receiver := Receiver.global,
           args := List.zipWith (fun p t => from_g_value p t) param_values
             closure.signal_info.args }]
        (to_g_value result return_value.g_type return_value).2 true := by
  rw [closure_marshal_eq_handle_result from_g_value to_g_value call closure
    return_value param_values (le_of_eq hlen), hcall]
  unfold GIRSignalClosure.handle_result
  dsimp only
  rw [if_neg (by simp [hnn, hnu]), if_neg (by simp [hfail])]

/-- Witness for C5: zero parameters, callback returns the usable value
`7`, the conversion `to_g_keep_fail` fails leaving the slot as it found
it: error reported, slot at its prior value. -/
theorem marshal_return_conversion_failure_reports_witness :
    GIRSignalClosure.closure_marshal conv_data to_g_keep_fail call_ret7
        cl_void slot_i32 [] =
      MarshalResult.completed
        [{ callback := cl_void.callback, receiver := Receiver.global,
           args := [] }] slot_i32 true :=
  marshal_return_conversion_failure_reports conv_data to_g_keep_fail
    call_ret7 cl_void slot_i32 [] (JSValue.val 7) rfl rfl (by decide)
    (by decide) rfl

/-- C6: on a non-void-returning signal, when the callback call produced no
usable result — the empty handle, `null`, or `undefined` — the marshal
call leaves the native return slot unmodified and reports no error (the
source's `return_value = nullptr` only nulls the local pointer). -/
theorem marshal_no_usable_result_silent
    (from_g_value : GValue → GITypeInfo → JSValue)
    (to_g_value : JSValue → GType → GValue → Bool × GValue)
    (call : CallbackHandle → Receiver → List JSValue → Option JSValue)
    (closure : GIRSignalClosure) (return_value : GValue)
    (param_values : List GValue)
    (hlen : param_values.length = closure.signal_info.args.length)
    (hret : closure.signal_info.ret_type ≠ GI_TYPE_TAG_VOID)
    (hres : call closure.callback Receiver.global
        (List.zipWith (fun p t => from_g_value p t) param_values
          closure.signal_info.args) = none ∨
      call closure.callback Receiver.global
        (List.zipWith (fun p t => from_g_value p t) param_values
          closure.signal_info.args) = some JSValue.null ∨
      call closure.callback Receiver.global
        (List.zipWith (fun p t => from_g_value p t) param_values
          closure.signal_info.args) = some JSValue.undefined) :
    GIRSignalClosure.closure_marshal from_g_value to_g_value call closure
        return_value param_values =
      MarshalResult.completed
        [{ callback := closure.callback, receiver := Receiver.global,
           args := List.zipWith (fun p t => from_g_value p t) param_values
             closure.signal_info.args }] return_value false := by
  rw [closure_marshal_eq_handle_result from_g_value to_g_value call closure
    return_value param_values (le_of_eq hlen)]
  rcases hres with h | h | h <;>
    rw [h] <;> unfold GIRSignalClosure.handle_result <;> dsimp only <;>
    simp

/-- Witness for C6: `cl_i32` declares return type tag 3 ≠ void, the
callback produces no value, and the slot stays at its prior value with no
error. -/
theorem marshal_no_usable_result_silent_witness :
    GIRSignalClosure.closure_marshal conv_data to_g_write call_ret_none
        cl_i32 slot_i32 [gv3] =
      MarshalResult.completed
        [{ callback := cl_i32.callback, receiver := Receiver.global,
           args := List.zipWith (fun p t => conv_data p t) [gv3]
             cl_i32.signal_info.args }] slot_i32 false :=
  marshal_no_usable_result_silent conv_data to_g_write call_ret_none cl_i32
    slot_i32 [gv3] rfl (by decide) (Or.inl rfl)

/-- C7: under the unchecked precondition that the native parameter count
equals the descriptor's parameter count, every per-index descriptor lookup
is in bounds and the out-of-bounds outcome is unreachable; and the marshal
performs no check of this — a mismatched call (here one value against an
empty parameter list) reaches the out-of-bounds read. -/
theorem marshal_param_count_unchecked_precondition :
    (∀ (from_g_value : GValue → GITypeInfo → JSValue)
       (to_g_value : JSValue → GType → GValue → Bool × GValue)
       (call : CallbackHandle → Receiver → List JSValue → Option JSValue)
       (closure : GIRSignalClosure) (return_value : GValue)
       (param_values : List GValue),
       param_values.length = closure.signal_info.args.length →
       GIRSignalClosure.closure_marshal from_g_value to_g_value call closure
           return_value param_values ≠ MarshalResult.oob_read)
    ∧ GIRSignalClosure.closure_marshal conv_data to_g_write call_ret7
        cl_void slot_void [gv3] = MarshalResult.oob_read := by
  constructor
  · intro from_g_value to_g_value call closure return_value param_values h
    rw [closure_marshal_eq_handle_result from_g_value to_g_value call
      closure return_value param_values (le_of_eq h)]
    obtain ⟨ret, err, heq⟩ := handle_result_completed to_g_value _ return_value _
    rw [heq]
    exact fun hcontra => MarshalResult.noConfusion hcontra
  · rfl

/-- Witness for C7 at a concrete matched input: one value against one
declared parameter never reaches the out-of-bounds branch. -/
theorem marshal_param_count_unchecked_precondition_witness :
    GIRSignalClosure.closure_marshal conv_data to_g_write call_ret7 cl_i32
        slot_i32 [gv3] ≠ MarshalResult.oob_read :=
  marshal_param_count_unchecked_precondition.1 conv_data to_g_write
    call_ret7 cl_i32 slot_i32 [gv3] rfl

/-- C4 counterexample: a signal whose declared return type is void
(`cl_void`, with a void-typed return slot), whose callback returns the
usable value `7`: the marshal attempts the dynamic-to-native conversion
into the slot — it has no void-return special case — and the final slot
differs from the prior one, so the claim that a void-returning emission
never writes the return slot is false. -/
theorem marshal_void_return_slot_written :
    cl_void.signal_info.ret_type = GI_TYPE_TAG_VOID ∧
    slot_void.g_type = G_TYPE_NONE ∧
    GIRSignalClosure.closure_marshal conv_data to_g_write call_ret7 cl_void
        slot_void [] =
      MarshalResult.completed
        [{ callback := cb0, receiver := Receiver.global, args := [] }]
        { g_type := G_TYPE_NONE, data := 9 } false ∧
    ({ g_type := G_TYPE_NONE, data := 9 } : GValue) ≠ slot_void := by
  refine ⟨rfl, rfl, rfl, by decide⟩

/-- C4 amended: on a void-returning signal, the marshal never writes the
return slot when the callback returns the empty handle, `null`, or
`undefined`; when the callback returns a usable value the marshal
unconditionally attempts the dynamic-to-native conversion into the slot
(the code never consults the void return type), so the slot ends in
whatever state that conversion produces — written on success, left as the
failed conversion left it (with an error reported) on failure. -/
theorem marshal_void_return_behavior
    (from_g_value : GValue → GITypeInfo → JSValue)
    (to_g_value : JSValue → GType → GValue → Bool × GValue)
    (call : CallbackHandle → Receiver → List JSValue → Option JSValue)
    (closure : GIRSignalClosure) (return_value : GValue)
    (param_values : List GValue)
    (hvoid : closure.signal_info.ret_type = GI_TYPE_TAG_VOID)
    (hlen : param_values.length = closure.signal_info.args.length) :
    (call closure.callback Receiver.global
        (List.zipWith (fun p t => from_g_value p t) param_values
          closure.signal_info.args) = none ∨
     call closure.callback Receiver.global
        (List.zipWith (fun p t => from_g_value p t) param_values
          closure.signal_info.args) = some JSValue.null ∨
     call closure.callback Receiver.global
        (List.zipWith (fun p t => from_g_value p t) param_values
          closure.signal_info.args) = some JSValue.undefined →
      GIRSignalClosure.closure_marshal from_g_value to_g_value call closure
          return_value param_values =
        MarshalResult.completed
          [{ callback := closure.callback, receiver := Receiver.global,
             args := List.zipWith (fun p t => from_g_value p t) param_values
               closure.signal_info.args }] return_value false)
    ∧ (∀ result : JSValue,
        call closure.callback Receiver.global
            (List.zipWith (fun p t => from_g_value p t) param_values
              closure.signal_info.args) = some result →
        result ≠ JSValue.null → result ≠ JSValue.undefined →
        (to_g_value result return_value.g_type return_value).1 = true →
        GIRSignalClosure.closure_marshal from_g_value to_g_value call closure
            return_value param_values =
          MarshalResult.completed
            [{ callback := closure.callback, receiver := Receiver.global,
               args := List.zipWith (fun p t => from_g_value p t)
                 param_values closure.signal_info.args }]
            (to_g_value result return_value.g_type return_value).2 false)
    ∧ (∀ result : JSValue,
        call closure.callback Receiver.global
            (List.zipWith (fun p t => from_g_value p t) param_values
              closure.signal_info.args) = some result →
        result ≠ JSValue.null → result ≠ JSValue.undefined →
        (to_g_value result return_value.g_type return_value).1 = false →
        GIRSignalClosure.closure_marshal from_g_value to_g_value call closure
            return_value param_values =
          MarshalResult.completed
            [{ callback := closure.callback, receiver := Receiver.global,
               args := List.zipWith (fun p t => from_g_value p t)
                 param_values closure.signal_info.args }]
            (to_g_value result return_value.g_type return_value).2 true) := by
  rw [closure_marshal_eq_handle_result from_g_value to_g_value call closure
    return_value param_values (le_of_eq hlen)]
  refine ⟨?_, ?_, ?_⟩
  · intro hres
    rcases hres with h | h | h <;>
      rw [h] <;> unfold GIRSignalClosure.handle_result <;> dsimp only <;>
      simp
  · intro result hres hnn hnu hok
    rw [hres]
    unfold GIRSignalClosure.handle_result
    dsimp only
    rw [if_neg (by simp [hnn, hnu]), if_pos hok]
  · intro result hres hnn hnu hfail
    rw [hres]
    unfold GIRSignalClosure.handle_result
    dsimp only
    rw [if_neg (by simp [hnn, hnu]), if_neg (by simp [hfail])]

/-- Witness for C4 amended: void-returning signal, callback returns
`null`, the slot is untouched and no error is reported. -/
theorem marshal_void_return_behavior_witness :
    GIRSignalClosure.closure_marshal conv_data to_g_write call_ret_null
        cl_void slot_void [] =
      MarshalResult.completed
        [{ callback := cl_void.callback, receiver := Receiver.global,
           args := [] }] slot_void false :=
  (marshal_void_return_behavior conv_data to_g_write call_ret_null cl_void
      slot_void [] rfl rfl).1 (Or.inr (Or.inl rfl))

/-- C9 counterexample: a concrete marshal call invokes the callback with
`Nan::GetCurrentContext()->Global()` as receiver — the global object, a
meaningful `this` value — not the environment's neutral/empty binding
(`undefined`), so the claim as stated is false. -/
theorem marshal_receiver_is_global_not_neutral :
    GIRSignalClosure.closure_marshal conv_data to_g_write call_ret_null
        cl_void slot_void [] =
      MarshalResult.completed
        [{ callback := cb0, receiver := Receiver.global, args := [] }]
        slot_void false ∧
    Receiver.global ≠ Receiver.undef := by
  exact ⟨rfl, by decide⟩

/-- C9 amended: the callback is always invoked with the global object as
receiver — a fixed binding independent of the emission and of any
instance, which the source comment documents as standing in for the
(unavailable) neutral `undefined` binding. -/
theorem marshal_receiver_always_global
    (from_g_value : GValue → GITypeInfo → JSValue)
    (to_g_value : JSValue → GType → GValue → Bool × GValue)
    (call : CallbackHandle → Receiver → List JSValue → Option JSValue)
    (closure : GIRSignalClosure) (return_value : GValue)
    (param_values : List GValue)
    (hlen : param_values.length ≤ closure.signal_info.args.length) :
    ∃ argv ret err,
      GIRSignalClosure.closure_marshal from_g_value to_g_value call closure
          return_value param_values =
        MarshalResult.completed
          [{ callback := closure.callback, receiver := Receiver.global,
             args := argv }] ret err := by
  rw [closure_marshal_eq_handle_result from_g_value to_g_value call closure
    return_value param_values hlen]
  obtain ⟨ret, err, heq⟩ := handle_result_completed to_g_value _ return_value _
  exact ⟨_, ret, err, heq⟩

/-- Witness for C9 amended: the concrete one-parameter marshal call
invokes the callback with the global receiver. -/
theorem marshal_receiver_always_global_witness :
    ∃ argv ret err,
      GIRSignalClosure.closure_marshal conv_data to_g_write call_ret7 cl_i32
          slot_i32 [gv3] =
        MarshalResult.completed
          [{ callback := cl_i32.callback, receiver := Receiver.global,
             args := argv }] ret err :=
  marshal_receiver_always_global conv_data to_g_write call_ret7 cl_i32
    slot_i32 [gv3] (by decide)

/-- C10: `create` never reads its instance argument — two calls differing
only in the instance produce identical results (same success or failure,
same stored descriptor and callback, same effects). -/
theorem create_ignores_instance (repo : GIRepository)
    (inst1 inst2 : GIRObject) (signal_g_type : GType) (signal_name : String)
    (callback : CallbackHandle) :
    GIRSignalClosure.create repo inst1 signal_g_type signal_name callback =
      GIRSignalClosure.create repo inst2 signal_g_type signal_name callback :=
  rfl
